import Mathlib

/-!
SUPERball v3 tensegrity model (`src/dev/eajung/v3Ball/v3Model.cpp`)

A shallow embedding of `v3Model`: the configuration record `c`, the three
geometry routines `addNodes`, `addRods`, `addActuators`, the assembly routine
`setup` and the lifecycle routine `step`.

The C++ `double` is read as an exact number of a field `K`: the definitions are
generic in `K`, evaluate over `ℚ`, and are used over `ℝ` for the statements
about arbitrary rotations.  All routines pass a `State` explicitly: the
local structure `s` of `setup`, the build specification, the structure handed
to the builder, and the sequence of calls made so far.
-/

namespace v3Model

/-! ## Data model -/

/-- Three coordinates, as Bullet's `btVector3`. -/
structure btVector3 (K : Type) where
  x : K
  y : K
  z : K
deriving DecidableEq

/-- The anonymous configuration record `Config` of the source (lines 54-70). -/
structure Config (K : Type) where
  density : K
  radius : K
  radius_motor : K
  stiffness : K
  damping : K
  rod_length : K
  rod_space : K
  friction : K
  rollFriction : K
  restitution : K
  pretension : K
  hist : Bool
  maxTens : K
  targetVelocity : K

/-- A tagged pair of node indices, as passed to `tgStructure::addPair`. -/
structure tgPair where
  fromNodeIdx : Nat
  toNodeIdx : Nat
  tags : String
deriving DecidableEq

/-- The part of `tgStructure` that `v3Model` fills: the node list and the
tagged pairs, each in order of declaration. -/
structure tgStructure (K : Type) where
  nodes : List (btVector3 K)
  pairs : List tgPair
deriving DecidableEq

/-- The builder registered for a tag: `tgRodInfo(tgRod::Config(...))` or
`tgBasicActuatorInfo(tgBasicActuator::Config(...))`, with the constructor
arguments in the order of the source. -/
inductive tgBuilder (K : Type) where
  | tgRodInfo (radius density friction rollFriction restitution : K)
  | tgBasicActuatorInfo (stiffness damping pretension : K) (hist : Bool)
      (maxTens targetVelocity : K)
deriving DecidableEq

/-- One call made by `v3Model` into the toolkit. The angle of `addRotation` is
carried by its cosine and sine, so that a right angle is exact. -/
inductive Call (K : Type) where
  | addNode (x y z : K)
  | addPair (fromNodeIdx toNodeIdx : Nat) (tags : String)
  | move (offset : btVector3 K)
  | addRotation (fixedPoint axis : btVector3 K) (cosAngle sinAngle : K)
  | addBuilder (tag : String) (b : tgBuilder K)
  | buildInto
  | filter
  | notifySetup
  | tgModel_setup
  | notifyStep (dt : K)
  | tgModel_step (dt : K)
deriving DecidableEq

/-- The state the routines of `v3Model` act on. -/
structure State (K : Type) where
  s : tgStructure K
  spec : List (String × tgBuilder K)
  handed : Option (tgStructure K × List (String × tgBuilder K))
  trace : List (Call K)
deriving DecidableEq

/-- The state before `setup`: an empty structure, an empty build
specification, nothing built, no call made. -/
def State.init {K : Type} : State K :=
  { s := { nodes := [], pairs := [] }, spec := [], handed := none, trace := [] }

/-- The exception `std::invalid_argument` with its message. -/
inductive Exception where
  | invalid_argument (what : String)
deriving DecidableEq

/-- How a routine that may throw ends: it returns in a state, or it throws in
the state reached at the throw. -/
inductive Outcome (K : Type) where
  | returned (σ : State K)
  | threw (e : Exception) (σ : State K)
deriving DecidableEq

section Geometry

variable {K : Type} [Field K]

/-- Componentwise sum, `btVector3::operator+`. -/
def btVector3.add (a b : btVector3 K) : btVector3 K :=
  ⟨a.x + b.x, a.y + b.y, a.z + b.z⟩

/-- Componentwise difference, `btVector3::operator-`. -/
def btVector3.sub (a b : btVector3 K) : btVector3 K :=
  ⟨a.x - b.x, a.y - b.y, a.z - b.z⟩

/-- Scaling by a scalar, `btVector3::operator*`. -/
def btVector3.scale (a : btVector3 K) (r : K) : btVector3 K :=
  ⟨a.x * r, a.y * r, a.z * r⟩

/-- Dot product, `btVector3::dot`. -/
def btVector3.dot (a b : btVector3 K) : K :=
  a.x * b.x + a.y * b.y + a.z * b.z

/-- Cross product, `btVector3::cross`. -/
def btVector3.cross (a b : btVector3 K) : btVector3 K :=
  ⟨a.y * b.z - a.z * b.y, a.z * b.x - a.x * b.z, a.x * b.y - a.y * b.x⟩

/-- Squared distance, `btVector3::distance2`. -/
def btVector3.distance2 (a b : btVector3 K) : K :=
  (b.sub a).dot (b.sub a)

/-- Modelled from the spec: the rotation `tgStructure::addRotation` applies to
a node, which is not part of this file. It turns `v` about the unit axis
`wAxis` by the angle whose cosine and sine are given, in the steps of Bullet's
`btVector3::rotate`. -/
def btVector3.rotate (v wAxis : btVector3 K) (cosAngle sinAngle : K) : btVector3 K :=
  let o := wAxis.scale (wAxis.dot v)
  let _x := v.sub o
  let _y := wAxis.cross v
  (o.add (_x.scale cosAngle)).add (_y.scale sinAngle)

/-! ## Configuration -/

/-- The constant `c` of the source (lines 70-94). -/
def c : Config K :=
  { density := 0.688
    radius := 0.127 / 2
    radius_motor := 0.56 / 2
    stiffness := 613.0
    damping := 200.0 / 3
    rod_length := 6.5
    rod_space := 3.25
    friction := 0.99
    rollFriction := 0.01
    restitution := 0.0
    pretension := 2100.0
    hist := false
    maxTens := 100000
    targetVelocity := 10000 }

/-- The local constant `third_length` of `addNodes` (line 107). -/
def third_length : K := 2.26155

/-- The local constant `motor_length` of `addNodes` (line 108). -/
def motor_length : K := 1.9769

/-! ## The toolkit calls

`tgStructure` and `tgStructureInfo` belong to the toolkit, outside this file. -/

/-- Modelled from the spec: `tgStructure::addNode`, which is not part of this
file. It populates the structure's node list with the given coordinates; the
new node takes the next index. -/
def addNode (x y z : K) (σ : State K) : State K :=
  { σ with
    s := { σ.s with nodes := σ.s.nodes ++ [⟨x, y, z⟩] }
    trace := σ.trace ++ [Call.addNode x y z] }

/-- Modelled from the spec: `tgStructure::addPair`, which is not part of this
file. It records the tagged pair of node indices; an out-of-range or duplicate
index is not checked here. -/
def addPair (fromNodeIdx toNodeIdx : Nat) (tags : String) (σ : State K) : State K :=
  { σ with
    s := { σ.s with pairs := σ.s.pairs ++ [⟨fromNodeIdx, toNodeIdx, tags⟩] }
    trace := σ.trace ++ [Call.addPair fromNodeIdx toNodeIdx tags] }

/-- Modelled from the spec: `tgStructure::move`, which is not part of this
file. It translates every node by the offset. -/
def move (offset : btVector3 K) (σ : State K) : State K :=
  { σ with
    s := { σ.s with nodes := σ.s.nodes.map (fun v => v.add offset) }
    trace := σ.trace ++ [Call.move offset] }

/-- Modelled from the spec: `tgStructure::addRotation`, which is not part of
this file. It rotates every node about the axis through the fixed point. -/
def addRotation (fixedPoint axis : btVector3 K) (cosAngle sinAngle : K)
    (σ : State K) : State K :=
  { σ with
    s := { σ.s with
      nodes := σ.s.nodes.map
        (fun v => ((v.sub fixedPoint).rotate axis cosAngle sinAngle).add fixedPoint) }
    trace := σ.trace ++ [Call.addRotation fixedPoint axis cosAngle sinAngle] }

/-- The call `tgBuildSpec::addBuilder`: registers a builder under a tag. -/
def addBuilder (tag : String) (b : tgBuilder K) (σ : State K) : State K :=
  { σ with
    spec := σ.spec ++ [(tag, b)]
    trace := σ.trace ++ [Call.addBuilder tag b] }

/-- The calls `tgStructureInfo structureInfo(s, spec)` and
`structureInfo.buildInto(*this, world)`: the structure and the specification
are handed to the builder as they are at this point. -/
def buildInto (σ : State K) : State K :=
  { σ with
    handed := some (σ.s, σ.spec)
    trace := σ.trace ++ [Call.buildInto] }

/-- A call that only notifies the toolkit. -/
def call (k : Call K) (σ : State K) : State K :=
  { σ with trace := σ.trace ++ [k] }

/-! ## The routines of `v3Model` -/

/-- The routine `v3Model::addNodes` (lines 105-146). -/
def addNodes (σ : State K) : State K :=
  -- lower rod
  let σ := addNode 0 (-(c : Config K).rod_space) (-third_length - motor_length / 2) σ  -- 0
  let σ := addNode 0 (-(c : Config K).rod_space) (-motor_length / 2) σ                 -- 1
  let σ := addNode 0 (-(c : Config K).rod_space) (motor_length / 2) σ                  -- 2
  let σ := addNode 0 (-(c : Config K).rod_space) (third_length + motor_length / 2) σ   -- 3
  -- lower rod
  let σ := addNode 0 (c : Config K).rod_space (-third_length - motor_length / 2) σ     -- 4
  let σ := addNode 0 (c : Config K).rod_space (-motor_length / 2) σ                    -- 5
  let σ := addNode 0 (c : Config K).rod_space (motor_length / 2) σ                     -- 6
  let σ := addNode 0 (c : Config K).rod_space (third_length + motor_length / 2) σ      -- 7
  -- left rod
  let σ := addNode (-third_length - motor_length / 2) 0 (c : Config K).rod_space σ     -- 8
  let σ := addNode (-motor_length / 2) 0 (c : Config K).rod_space σ                    -- 9
  let σ := addNode (motor_length / 2) 0 (c : Config K).rod_space σ                     -- 10
  let σ := addNode (third_length + motor_length / 2) 0 (c : Config K).rod_space σ      -- 11
  -- left rod
  let σ := addNode (-third_length - motor_length / 2) 0 (-(c : Config K).rod_space) σ  -- 12
  let σ := addNode (-motor_length / 2) 0 (-(c : Config K).rod_space) σ                 -- 13
  let σ := addNode (motor_length / 2) 0 (-(c : Config K).rod_space) σ                  -- 14
  let σ := addNode (third_length + motor_length / 2) 0 (-(c : Config K).rod_space) σ   -- 15
  -- center rod close
  let σ := addNode (-(c : Config K).rod_space) (-third_length - motor_length / 2) 0 σ  -- 16
  let σ := addNode (-(c : Config K).rod_space) (-motor_length / 2) 0 σ                 -- 17
  let σ := addNode (-(c : Config K).rod_space) (motor_length / 2) 0 σ                  -- 18
  let σ := addNode (-(c : Config K).rod_space) (third_length + motor_length / 2) 0 σ   -- 19
  -- center rod far
  let σ := addNode (c : Config K).rod_space (-third_length - motor_length / 2) 0 σ     -- 20
  let σ := addNode (c : Config K).rod_space (-motor_length / 2) 0 σ                    -- 21
  let σ := addNode (c : Config K).rod_space (motor_length / 2) 0 σ                     -- 22
  let σ := addNode (c : Config K).rod_space (third_length + motor_length / 2) 0 σ      -- 23
  σ

/-- The routine `v3Model::addRods` (lines 148-173). -/
def addRods (σ : State K) : State K :=
  let σ := addPair 0 1 "rod" σ
  let σ := addPair 1 2 "motor" σ
  let σ := addPair 2 3 "rod" σ

  let σ := addPair 4 5 "rod" σ
  let σ := addPair 5 6 "motor" σ
  let σ := addPair 6 7 "rod" σ

  let σ := addPair 8 9 "rod" σ
  let σ := addPair 9 10 "motor" σ
  let σ := addPair 10 11 "rod" σ

  let σ := addPair 12 13 "rod" σ
  let σ := addPair 13 14 "motor" σ
  let σ := addPair 14 15 "rod" σ

  let σ := addPair 16 17 "rod" σ
  let σ := addPair 17 18 "motor" σ
  let σ := addPair 18 19 "rod" σ

  let σ := addPair 20 21 "rod" σ
  let σ := addPair 21 22 "motor" σ
  let σ := addPair 22 23 "rod" σ
  σ

/-- The routine `v3Model::addActuators` (lines 175-211). -/
def addActuators (σ : State K) : State K :=
  let σ := addPair 16 0 "muscle" σ
  let σ := addPair 16 3 "muscle" σ
  let σ := addPair 16 8 "muscle" σ
  let σ := addPair 16 12 "muscle" σ

  let σ := addPair 19 4 "muscle" σ
  let σ := addPair 19 7 "muscle" σ
  let σ := addPair 19 8 "muscle" σ
  let σ := addPair 19 12 "muscle" σ

  let σ := addPair 20 0 "muscle" σ
  let σ := addPair 20 3 "muscle" σ
  let σ := addPair 20 11 "muscle" σ
  let σ := addPair 20 15 "muscle" σ

  let σ := addPair 23 7 "muscle" σ
  let σ := addPair 23 4 "muscle" σ
  let σ := addPair 23 11 "muscle" σ
  let σ := addPair 23 15 "muscle" σ

  let σ := addPair 0 20 "muscle" σ
  let σ := addPair 0 12 "muscle" σ
  let σ := addPair 0 15 "muscle" σ

  let σ := addPair 3 8 "muscle" σ
  let σ := addPair 3 11 "muscle" σ

  let σ := addPair 4 12 "muscle" σ
  let σ := addPair 4 15 "muscle" σ

  let σ := addPair 7 8 "muscle" σ
  let σ := addPair 7 11 "muscle" σ
  σ

/-- The routine `v3Model::setup` (lines 213-261). The local structure `s`
starts empty; the angle `M_PI/2` of the rotation is given by its cosine `0`
and its sine `1`. -/
def setup (σ : State K) : State K :=
  let rodConfig : tgBuilder K :=
    .tgRodInfo (c : Config K).radius (c : Config K).density (c : Config K).friction
      (c : Config K).rollFriction (c : Config K).restitution
  let motorConfig : tgBuilder K :=
    .tgRodInfo (c : Config K).radius_motor (c : Config K).density (c : Config K).friction
      (c : Config K).rollFriction (c : Config K).restitution
  let muscleConfig : tgBuilder K :=
    .tgBasicActuatorInfo (c : Config K).stiffness (c : Config K).damping
      (c : Config K).pretension (c : Config K).hist (c : Config K).maxTens
      (c : Config K).targetVelocity
  -- Start creating the structure
  let σ := { σ with s := { nodes := [], pairs := [] } }
  let σ := addNodes σ
  let σ := addRods σ
  let σ := addActuators σ
  let σ := move ⟨0, 10, 0⟩ σ
  -- Add a rotation
  let rotationPoint : btVector3 K := ⟨0, 0, 0⟩
  let rotationAxis : btVector3 K := ⟨0, 1, 0⟩
  let σ := addRotation rotationPoint rotationAxis 0 1 σ
  -- Create the build spec
  let σ := { σ with spec := [] }
  let σ := addBuilder "rod" rodConfig σ
  let σ := addBuilder "muscle" muscleConfig σ
  let σ := addBuilder "motor" motorConfig σ
  -- Use the structureInfo to build ourselves
  let σ := buildInto σ
  let σ := call Call.filter σ
  let σ := call Call.notifySetup σ
  let σ := call Call.tgModel_setup σ
  σ

end Geometry

section Lifecycle

variable {K : Type} [LinearOrderedField K]

/-- The routine `v3Model::step` (lines 263-276). -/
def step (dt : K) (σ : State K) : Outcome K :=
  if dt ≤ 0 then
    .threw (.invalid_argument "dt is not positive") σ
  else
    let σ := call (Call.notifyStep dt) σ
    let σ := call (Call.tgModel_step dt) σ
    .returned σ

end Lifecycle

/-! ## Reading the declarations -/

/-- The node with index `i` of a structure, if declared. -/
def tgStructure.node {K : Type} (s : tgStructure K) (i : Nat) : Option (btVector3 K) :=
  s.nodes[i]?

/-- The pairs of a structure that carry one of the given tags. -/
def tgStructure.tagged {K : Type} (s : tgStructure K) (tags : List String) : List tgPair :=
  s.pairs.filter (fun p => tags.contains p.tags)

/-- The connection a pair makes, without orientation: the smaller index
first. -/
def tgPair.connection (p : tgPair) : Nat × Nat :=
  (min p.fromNodeIdx p.toNodeIdx, max p.fromNodeIdx p.toNodeIdx)

/-- Whether a call declares a node. -/
def Call.isAddNode {K : Type} : Call K → Bool
  | .addNode _ _ _ => true
  | _ => false

/-- Whether a call declares a pair: a rod or motor segment, or a muscle. -/
def Call.isAddPair {K : Type} : Call K → Bool
  | .addPair _ _ _ => true
  | _ => false

/-- Whether a call is the translation `tgStructure::move`. -/
def Call.isMove {K : Type} : Call K → Bool
  | .move _ => true
  | _ => false

/-- Whether a call is the rotation `tgStructure::addRotation`. -/
def Call.isRotation {K : Type} : Call K → Bool
  | .addRotation _ _ _ _ => true
  | _ => false

/-- Whether a call hands the structure to the builder. -/
def Call.isBuildInto {K : Type} : Call K → Bool
  | .buildInto => true
  | _ => false

/-- The segments expected of bar `k`, to compare `addRods` with: rod, motor,
rod along the four consecutive nodes `4k .. 4k+3`. -/
def barSegments (k : Nat) : List tgPair :=
  [⟨4 * k, 4 * k + 1, "rod"⟩, ⟨4 * k + 1, 4 * k + 2, "motor"⟩, ⟨4 * k + 2, 4 * k + 3, "rod"⟩]

/-- The state in which `setup` applies its transform: all declarations made. -/
def declared (K : Type) [Field K] : State K :=
  addActuators (addRods (addNodes State.init))

/-! ## Theorems -/

/-- The pairs `addRods` adds to an empty structure, written out. -/
theorem addRods_pairs {K : Type} [Field K] :
    (addRods (State.init : State K)).s.pairs =
      [⟨0, 1, "rod"⟩, ⟨1, 2, "motor"⟩, ⟨2, 3, "rod"⟩,
       ⟨4, 5, "rod"⟩, ⟨5, 6, "motor"⟩, ⟨6, 7, "rod"⟩,
       ⟨8, 9, "rod"⟩, ⟨9, 10, "motor"⟩, ⟨10, 11, "rod"⟩,
       ⟨12, 13, "rod"⟩, ⟨13, 14, "motor"⟩, ⟨14, 15, "rod"⟩,
       ⟨16, 17, "rod"⟩, ⟨17, 18, "motor"⟩, ⟨18, 19, "rod"⟩,
       ⟨20, 21, "rod"⟩, ⟨21, 22, "motor"⟩, ⟨22, 23, "rod"⟩] := by
  simp [addRods, addPair, State.init]

/-- The pairs `addActuators` adds to an empty structure, written out. -/
theorem addActuators_pairs {K : Type} [Field K] :
    (addActuators (State.init : State K)).s.pairs =
      [⟨16, 0, "muscle"⟩, ⟨16, 3, "muscle"⟩, ⟨16, 8, "muscle"⟩, ⟨16, 12, "muscle"⟩,
       ⟨19, 4, "muscle"⟩, ⟨19, 7, "muscle"⟩, ⟨19, 8, "muscle"⟩, ⟨19, 12, "muscle"⟩,
       ⟨20, 0, "muscle"⟩, ⟨20, 3, "muscle"⟩, ⟨20, 11, "muscle"⟩, ⟨20, 15, "muscle"⟩,
       ⟨23, 7, "muscle"⟩, ⟨23, 4, "muscle"⟩, ⟨23, 11, "muscle"⟩, ⟨23, 15, "muscle"⟩,
       ⟨0, 20, "muscle"⟩, ⟨0, 12, "muscle"⟩, ⟨0, 15, "muscle"⟩,
       ⟨3, 8, "muscle"⟩, ⟨3, 11, "muscle"⟩,
       ⟨4, 12, "muscle"⟩, ⟨4, 15, "muscle"⟩,
       ⟨7, 8, "muscle"⟩, ⟨7, 11, "muscle"⟩] := by
  simp [addActuators, addPair, State.init]

/-- The routines `addRods` and `addActuators` leave the node list alone. -/
theorem declared_nodes {K : Type} [Field K] :
    (declared K).s.nodes = (addNodes (State.init : State K)).s.nodes := by
  simp [declared, addActuators, addRods, addPair]

/-- The routine `addNodes` leaves the pairs alone. -/
theorem addNodes_pairs {K : Type} [Field K] (σ : State K) :
    (addNodes σ).s.pairs = σ.s.pairs := by
  simp [addNodes, addNode]

/-- The routine `addRods` appends its pairs to those already declared. -/
theorem addRods_pairs_append {K : Type} [Field K] (σ : State K) :
    (addRods σ).s.pairs = σ.s.pairs ++ (addRods (State.init : State K)).s.pairs := by
  simp [addRods, addPair, State.init]

/-- The routine `addActuators` appends its pairs to those already declared. -/
theorem addActuators_pairs_append {K : Type} [Field K] (σ : State K) :
    (addActuators σ).s.pairs =
      σ.s.pairs ++ (addActuators (State.init : State K)).s.pairs := by
  simp [addActuators, addPair, State.init]

/-- The pairs of the fully declared structure: the rod and motor segments,
then the muscles. -/
theorem declared_pairs {K : Type} [Field K] :
    (declared K).s.pairs =
      (addRods (State.init : State K)).s.pairs ++
        (addActuators (State.init : State K)).s.pairs := by
  unfold declared
  rw [addActuators_pairs_append, addRods_pairs_append, addNodes_pairs]
  simp [State.init]

/-- The routine `addNodes` declares 24 nodes. -/
theorem addNodes_length {K : Type} [Field K] :
    (addNodes (State.init : State K)).s.nodes.length = 24 := by
  simp [addNodes, addNode, State.init]

/-- The nodes `addNodes` declares, with the coordinates evaluated. -/
theorem addNodes_nodes {K : Type} [Field K] [CharZero K] :
    (addNodes (State.init : State K)).s.nodes =
      [⟨0, -3.25, -3.25⟩, ⟨0, -3.25, -0.98845⟩, ⟨0, -3.25, 0.98845⟩, ⟨0, -3.25, 3.25⟩,
       ⟨0, 3.25, -3.25⟩, ⟨0, 3.25, -0.98845⟩, ⟨0, 3.25, 0.98845⟩, ⟨0, 3.25, 3.25⟩,
       ⟨-3.25, 0, 3.25⟩, ⟨-0.98845, 0, 3.25⟩, ⟨0.98845, 0, 3.25⟩, ⟨3.25, 0, 3.25⟩,
       ⟨-3.25, 0, -3.25⟩, ⟨-0.98845, 0, -3.25⟩, ⟨0.98845, 0, -3.25⟩, ⟨3.25, 0, -3.25⟩,
       ⟨-3.25, -3.25, 0⟩, ⟨-3.25, -0.98845, 0⟩, ⟨-3.25, 0.98845, 0⟩, ⟨-3.25, 3.25, 0⟩,
       ⟨3.25, -3.25, 0⟩, ⟨3.25, -0.98845, 0⟩, ⟨3.25, 0.98845, 0⟩, ⟨3.25, 3.25, 0⟩] := by
  simp only [addNodes, addNode, State.init, c, third_length, motor_length, List.nil_append,
    List.cons_append, List.cons.injEq, btVector3.mk.injEq, and_true, true_and]
  norm_num

/-- Node lookup after `move`: the node of the same index, translated. -/
theorem node_move {K : Type} [Field K] (offset : btVector3 K) (σ : State K) (i : Nat) :
    (move offset σ).s.node i = (σ.s.node i).map (fun v => v.add offset) := by
  simp [move, tgStructure.node, List.getElem?_map]

/-- Node lookup after `addRotation`: the node of the same index, rotated. -/
theorem node_addRotation {K : Type} [Field K] (fixedPoint axis : btVector3 K)
    (cosAngle sinAngle : K) (σ : State K) (i : Nat) :
    (addRotation fixedPoint axis cosAngle sinAngle σ).s.node i =
      (σ.s.node i).map
        (fun v => ((v.sub fixedPoint).rotate axis cosAngle sinAngle).add fixedPoint) := by
  simp [addRotation, tgStructure.node, List.getElem?_map]

/-- A translation of both points keeps their squared distance. -/
theorem distance2_add {K : Type} [Field K] (a b offset : btVector3 K) :
    (a.add offset).distance2 (b.add offset) = a.distance2 b := by
  simp only [btVector3.distance2, btVector3.add, btVector3.sub, btVector3.dot]
  ring

/-- A rotation of both points about a unit axis through a fixed point keeps
their squared distance, for every cosine and sine of one angle. -/
theorem distance2_rotate {K : Type} [Field K] (a b fixedPoint axis : btVector3 K)
    (cosAngle sinAngle : K) (haxis : axis.dot axis = 1)
    (hangle : cosAngle * cosAngle + sinAngle * sinAngle = 1) :
    (((a.sub fixedPoint).rotate axis cosAngle sinAngle).add fixedPoint).distance2
      (((b.sub fixedPoint).rotate axis cosAngle sinAngle).add fixedPoint) =
    a.distance2 b := by
  simp only [btVector3.distance2, btVector3.rotate, btVector3.add, btVector3.sub,
    btVector3.dot, btVector3.cross, btVector3.scale] at haxis ⊢
  linear_combination
    ((b.x - a.x) ^ 2 + (b.y - a.y) ^ 2 + (b.z - a.z) ^ 2 -
        (axis.x * (b.x - a.x) + axis.y * (b.y - a.y) + axis.z * (b.z - a.z)) ^ 2) * hangle +
    ((axis.x * (b.x - a.x) + axis.y * (b.y - a.y) + axis.z * (b.z - a.z)) ^ 2 *
          (1 + cosAngle ^ 2 - 2 * cosAngle) +
        sinAngle ^ 2 * ((b.x - a.x) ^ 2 + (b.y - a.y) ^ 2 + (b.z - a.z) ^ 2)) * haxis

/-- The distance is the root of the squared distance: it is `r` when the
squared distance is `r ^ 2` and `r` is not negative. -/
theorem sqrt_distance2 (a b : btVector3 ℝ) (r : ℝ) (hr : 0 ≤ r)
    (h : a.distance2 b = r ^ 2) : Real.sqrt (a.distance2 b) = r := by
  rw [h, Real.sqrt_sq hr]

/-- Four points at the offsets `third_length`, `motor_length`, `third_length`
along one coordinate axis: the consecutive distances are these lengths, and the
distance of the outer two is their sum, the rod length of the configuration. -/
theorem bar_distances (n0 n1 n2 n3 e : btVector3 ℝ)
    (he : e ∈ [(⟨1, 0, 0⟩ : btVector3 ℝ), ⟨0, 1, 0⟩, ⟨0, 0, 1⟩])
    (h1 : n1 = n0.add (e.scale third_length))
    (h2 : n2 = n1.add (e.scale motor_length))
    (h3 : n3 = n2.add (e.scale third_length)) :
    Real.sqrt (n0.distance2 n1) = 2.26155 ∧
    Real.sqrt (n1.distance2 n2) = 1.9769 ∧
    Real.sqrt (n2.distance2 n3) = 2.26155 ∧
    Real.sqrt (n0.distance2 n3) =
      Real.sqrt (n0.distance2 n1) + Real.sqrt (n1.distance2 n2) +
        Real.sqrt (n2.distance2 n3) ∧
    Real.sqrt (n0.distance2 n3) = (c : Config ℝ).rod_length := by
  have hee : e.x * e.x + e.y * e.y + e.z * e.z = 1 := by
    simp only [List.mem_cons, List.mem_singleton, List.not_mem_nil, or_false] at he
    rcases he with rfl | rfl | rfl <;> norm_num
  have d01 : Real.sqrt (n0.distance2 n1) = 2.26155 := by
    apply sqrt_distance2 _ _ _ (by norm_num)
    subst h1
    simp only [btVector3.distance2, btVector3.add, btVector3.sub, btVector3.dot,
      btVector3.scale, third_length]
    linear_combination (2.26155 : ℝ) ^ 2 * hee
  have d12 : Real.sqrt (n1.distance2 n2) = 1.9769 := by
    apply sqrt_distance2 _ _ _ (by norm_num)
    subst h2
    simp only [btVector3.distance2, btVector3.add, btVector3.sub, btVector3.dot,
      btVector3.scale, motor_length]
    linear_combination (1.9769 : ℝ) ^ 2 * hee
  have d23 : Real.sqrt (n2.distance2 n3) = 2.26155 := by
    apply sqrt_distance2 _ _ _ (by norm_num)
    subst h3
    simp only [btVector3.distance2, btVector3.add, btVector3.sub, btVector3.dot,
      btVector3.scale, third_length]
    linear_combination (2.26155 : ℝ) ^ 2 * hee
  have d03 : Real.sqrt (n0.distance2 n3) = 6.5 := by
    apply sqrt_distance2 _ _ _ (by norm_num)
    subst h3 h2 h1
    simp only [btVector3.distance2, btVector3.add, btVector3.sub, btVector3.dot,
      btVector3.scale, third_length, motor_length]
    linear_combination (6.5 : ℝ) ^ 2 * hee
  refine ⟨d01, d12, d23, ?_, ?_⟩
  · rw [d01, d12, d23, d03]
    norm_num
  · rw [d03]
    simp [c]

/-- The routines `addRods` and `addActuators` leave the node list alone,
whatever the state. -/
theorem addActuators_addRods_nodes {K : Type} [Field K] (σ : State K) :
    (addActuators (addRods σ)).s.nodes = σ.s.nodes := by
  simp [addActuators, addRods, addPair]

/-- What `setup` hands to the builder: the declared structure, moved and then
rotated, with the three builders registered in the order of the source. -/
theorem setup_handed {K : Type} [Field K] :
    (setup (State.init : State K)).handed =
      some ((addRotation ⟨0, 0, 0⟩ ⟨0, 1, 0⟩ 0 1 (move ⟨0, 10, 0⟩ (declared K))).s,
        [("rod", .tgRodInfo (c : Config K).radius (c : Config K).density
            (c : Config K).friction (c : Config K).rollFriction (c : Config K).restitution),
         ("muscle", .tgBasicActuatorInfo (c : Config K).stiffness (c : Config K).damping
            (c : Config K).pretension (c : Config K).hist (c : Config K).maxTens
            (c : Config K).targetVelocity),
         ("motor", .tgRodInfo (c : Config K).radius_motor (c : Config K).density
            (c : Config K).friction (c : Config K).rollFriction
            (c : Config K).restitution)]) := by
  simp only [setup, buildInto, call, addBuilder, declared, State.init, List.nil_append,
    List.cons_append]

/-- Nodes 1 and 2 as `addNodes` declares them are a motor length apart. -/
theorem motor_nodes_declared :
    ∃ a b : btVector3 ℝ, (addNodes (State.init : State ℝ)).s.node 1 = some a ∧
      (addNodes (State.init : State ℝ)).s.node 2 = some b ∧
      Real.sqrt (a.distance2 b) = motor_length ∧ (motor_length : ℝ) = 1.9769 := by
  refine ⟨⟨0, -3.25, -0.98845⟩, ⟨0, -3.25, 0.98845⟩, ?_, ?_, ?_, rfl⟩
  · rw [tgStructure.node, addNodes_nodes]; rfl
  · rw [tgStructure.node, addNodes_nodes]; rfl
  · apply sqrt_distance2 _ _ _ (by norm_num [motor_length])
    norm_num [btVector3.distance2, btVector3.sub, btVector3.dot, motor_length]

/-- After the build `setup` leaves the structure as it was handed over. -/
theorem setup_structure {K : Type} [Field K] :
    (setup (State.init : State K)).s =
      (addRotation ⟨0, 0, 0⟩ ⟨0, 1, 0⟩ 0 1 (move ⟨0, 10, 0⟩ (declared K))).s := by
  simp only [setup, buildInto, call, addBuilder, declared, State.init]

/-- Nodes 1 and 2 of the structure `setup` builds, evaluated over the
rationals: the motor of the first bar now lies along the x-axis, at height 6.75. -/
theorem setup_nodes_rat :
    (setup (State.init : State ℚ)).s.node 1 = some ⟨-0.98845, 6.75, 0⟩ ∧
    (setup (State.init : State ℚ)).s.node 2 = some ⟨0.98845, 6.75, 0⟩ := by
  rw [setup_structure, node_addRotation, node_addRotation, node_move, node_move]
  simp only [tgStructure.node, declared_nodes, addNodes_nodes]
  norm_num [btVector3.rotate, btVector3.sub, btVector3.add, btVector3.scale, btVector3.dot,
    btVector3.cross]

/-- C1: `step dt` throws exactly when `dt ≤ 0`; it then throws
`invalid_argument` in the unchanged state, so neither `notifyStep` nor
`tgModel::step` is called; for `0 < dt` it returns, having called
`notifyStep dt` and then `tgModel::step dt`, once each. -/
theorem step_throws_iff_nonpositive {K : Type} [LinearOrderedField K] (dt : K) (σ : State K) :
    ((∃ e σ', step dt σ = .threw e σ') ↔ dt ≤ 0) ∧
    (dt ≤ 0 → step dt σ = .threw (.invalid_argument "dt is not positive") σ) ∧
    (0 < dt → step dt σ =
      .returned { σ with trace := σ.trace ++ [Call.notifyStep dt, Call.tgModel_step dt] }) := by
  refine ⟨⟨?_, ?_⟩, ?_, ?_⟩
  · rintro ⟨e, σ', h⟩
    by_contra hdt
    simp [step, hdt] at h
  · intro hdt
    exact ⟨.invalid_argument "dt is not positive", σ, by simp [step, hdt]⟩
  · intro hdt
    simp [step, hdt]
  · intro hdt
    simp [step, not_le.mpr hdt, call, List.append_assoc]

/-- C1, evaluated: a step of one millisecond is forwarded, a zero step and a
negative step throw and forward nothing. -/
theorem step_throws_iff_nonpositive_witness :
    step (1 / 1000 : ℚ) State.init =
      .returned { (State.init : State ℚ) with
        trace := [Call.notifyStep (1 / 1000), Call.tgModel_step (1 / 1000)] } ∧
    step (0 : ℚ) State.init = .threw (.invalid_argument "dt is not positive") State.init ∧
    step (-1 : ℚ) State.init = .threw (.invalid_argument "dt is not positive") State.init :=
  ⟨(step_throws_iff_nonpositive (1 / 1000 : ℚ) State.init).2.2 (by norm_num),
   (step_throws_iff_nonpositive (0 : ℚ) State.init).2.1 (by norm_num),
   (step_throws_iff_nonpositive (-1 : ℚ) State.init).2.1 (by norm_num)⟩

/-- C2, as stated, fails: the "muscle" pairs that `addActuators` adds to an
empty structure are not 26. -/
theorem addActuators_not_26 :
    ¬ ((addActuators (State.init : State ℚ)).s.tagged ["muscle"]).length = 26 := by
  decide

/-- C2, amended: to an empty structure `addActuators` adds exactly 25 "muscle"
pairs, and they are all the pairs it adds. -/
theorem addActuators_count {K : Type} [Field K] :
    ((addActuators (State.init : State K)).s.tagged ["muscle"]).length = 25 ∧
    (addActuators (State.init : State K)).s.tagged ["muscle"] =
      (addActuators (State.init : State K)).s.pairs := by
  constructor <;> simp [addActuators, addPair, State.init, tgStructure.tagged]

/-- C3: the rod and motor segments that `addRods` adds to an empty structure
are 18, namely for each bar `k` of `0..5`, in order, `(4k,4k+1)` "rod",
`(4k+1,4k+2)` "motor", `(4k+2,4k+3)` "rod"; `addRods` adds nothing else. -/
theorem addRods_segments {K : Type} [Field K] :
    ((addRods (State.init : State K)).s.tagged ["rod", "motor"]).length = 18 ∧
    (addRods (State.init : State K)).s.tagged ["rod", "motor"] =
      (List.range 6).flatMap barSegments ∧
    (addRods (State.init : State K)).s.pairs =
      (addRods (State.init : State K)).s.tagged ["rod", "motor"] ∧
    (addRods (State.init : State K)).s.nodes = [] := by
  refine ⟨?_, ?_, ?_, ?_⟩ <;>
    simp [addRods, addPair, State.init, tgStructure.tagged, barSegments, List.range,
      List.range.loop, List.flatMap]

/-- C4: `addNodes` declares exactly 24 nodes, with the indices `0..23` in
order of declaration, and each of these indices is an endpoint of at least one
"rod" or "motor" segment declared by `addRods`. -/
theorem addNodes_none_isolated {K : Type} [Field K] (i : Nat) :
    (addNodes (State.init : State K)).s.nodes.length = 24 ∧
    (((addNodes (State.init : State K)).s.node i).isSome ↔ i < 24) ∧
    (i < 24 → ∃ p ∈ (addRods (addNodes (State.init : State K))).s.tagged ["rod", "motor"],
      p.fromNodeIdx = i ∨ p.toNodeIdx = i) := by
  refine ⟨addNodes_length, ?_, ?_⟩
  · simp only [tgStructure.node]
    rw [← addNodes_length (K := K)]
    cases h : (addNodes (State.init : State K)).s.nodes[i]? with
    | none => simpa using List.getElem?_eq_none_iff.mp h
    | some v =>
      have := (List.getElem?_eq_some_iff.mp h).1
      simpa using this
  · intro hi
    have hp : (addRods (addNodes (State.init : State K))).s.pairs =
        (addRods (State.init : State K)).s.pairs := by
      rfl
    simp only [tgStructure.tagged, hp, addRods_pairs]
    interval_cases i <;> simp

/-- C4, evaluated at the last node: index 23 is declared and is an endpoint of
a rod segment. -/
theorem addNodes_none_isolated_witness :
    (23 < 24) ∧ ∃ p ∈ (addRods (addNodes (State.init : State ℚ))).s.tagged ["rod", "motor"],
      p.fromNodeIdx = 23 ∨ p.toNodeIdx = 23 :=
  ⟨by decide, (addNodes_none_isolated (K := ℚ) 23).2.2 (by decide)⟩

/-- C5: both endpoints of every pair declared by `addRods` or `addActuators`
are below 24, are found in the node list declared by `addNodes`, and differ. -/
theorem pair_indices_valid {K : Type} [Field K] (p : tgPair)
    (hp : p ∈ (declared K).s.pairs) :
    (p ∈ (addRods (State.init : State K)).s.pairs ∨
      p ∈ (addActuators (State.init : State K)).s.pairs) ∧
    p.fromNodeIdx < 24 ∧ p.toNodeIdx < 24 ∧
    ((declared K).s.node p.fromNodeIdx).isSome ∧
    ((declared K).s.node p.toNodeIdx).isSome ∧
    p.fromNodeIdx ≠ p.toNodeIdx := by
  have hlen : (declared K).s.nodes.length = 24 := by
    rw [declared_nodes, addNodes_length]
  have hsome : ∀ i, i < 24 → ((declared K).s.node i).isSome := by
    intro i hi
    simp only [tgStructure.node]
    rw [List.getElem?_eq_getElem (by omega)]
    rfl
  have hmem : p ∈ (addRods (State.init : State K)).s.pairs ∨
      p ∈ (addActuators (State.init : State K)).s.pairs := by
    rw [declared_pairs] at hp
    exact List.mem_append.mp hp
  have hidx : p.fromNodeIdx < 24 ∧ p.toNodeIdx < 24 ∧ p.fromNodeIdx ≠ p.toNodeIdx := by
    rw [declared_pairs, addRods_pairs, addActuators_pairs] at hp
    revert p
    simp
  exact ⟨hmem, hidx.1, hidx.2.1, hsome _ hidx.1, hsome _ hidx.2.1, hidx.2.2⟩

/-- C5, evaluated at the first muscle: the pair `(16, 0)` is declared and both
of its endpoints are valid, distinct node indices. -/
theorem pair_indices_valid_witness :
    (⟨16, 0, "muscle"⟩ : tgPair) ∈ (declared ℚ).s.pairs ∧
    (16 < 24 ∧ 0 < 24) ∧
    ((declared ℚ).s.node 16).isSome ∧ ((declared ℚ).s.node 0).isSome :=
  have hp : (⟨16, 0, "muscle"⟩ : tgPair) ∈ (declared ℚ).s.pairs := by decide
  have h := pair_indices_valid (K := ℚ) ⟨16, 0, "muscle"⟩ hp
  ⟨hp, ⟨h.2.1, h.2.2.1⟩, h.2.2.2.1, h.2.2.2.2.1⟩

/-- C8: the 25 pairs declared by `addActuators` make 24 distinct connections;
the connection of nodes 0 and 20 is declared twice, as `(20, 0)` (ninth pair)
and as `(0, 20)` (seventeenth pair), and every other connection exactly once,
counting both orientations. -/
theorem addActuators_connections {K : Type} [Field K] :
    (((addActuators (State.init : State K)).s.pairs.map tgPair.connection).dedup.length = 24) ∧
    (((addActuators (State.init : State K)).s.pairs.map tgPair.connection).count (0, 20) = 2) ∧
    ((addActuators (State.init : State K)).s.pairs[8]? = some ⟨20, 0, "muscle"⟩) ∧
    ((addActuators (State.init : State K)).s.pairs[16]? = some ⟨0, 20, "muscle"⟩) ∧
    (∀ e ∈ (addActuators (State.init : State K)).s.pairs.map tgPair.connection,
      e ≠ (0, 20) →
        ((addActuators (State.init : State K)).s.pairs.map tgPair.connection).count e = 1) := by
  rw [addActuators_pairs]
  decide

/-- C8, evaluated: the connection of nodes 16 and 0, declared as `(16, 0)`,
occurs once. -/
theorem addActuators_connections_witness :
    ((addActuators (State.init : State ℚ)).s.pairs.map tgPair.connection).count (0, 16) = 1 :=
  (addActuators_connections (K := ℚ)).2.2.2.2 (0, 16) (by decide) (by decide)

/-- C9: every pair declared by `addActuators` joins two bar-end nodes (index
0 or 3 modulo 4) of two different bars (index divided by 4), and the squared
distance of its two nodes is `2 * rod_space ^ 2 = 21.125`, the same for all
muscles. -/
theorem muscle_geometry {K : Type} [Field K] [CharZero K] (p : tgPair)
    (hp : p ∈ (addActuators (State.init : State K)).s.pairs) :
    (p.fromNodeIdx % 4 = 0 ∨ p.fromNodeIdx % 4 = 3) ∧
    (p.toNodeIdx % 4 = 0 ∨ p.toNodeIdx % 4 = 3) ∧
    p.fromNodeIdx / 4 ≠ p.toNodeIdx / 4 ∧
    ∃ a b, (addNodes (State.init : State K)).s.node p.fromNodeIdx = some a ∧
      (addNodes (State.init : State K)).s.node p.toNodeIdx = some b ∧
      a.distance2 b = 2 * (c : Config K).rod_space ^ 2 ∧
      a.distance2 b = 21.125 := by
  rw [addActuators_pairs] at hp
  revert p
  simp only [tgStructure.node, addNodes_nodes, List.forall_mem_cons, List.not_mem_nil,
    false_implies, implies_true, and_true]
  simp [btVector3.distance2, btVector3.sub, btVector3.dot, c]
  norm_num

/-- C9, evaluated at the muscle `(16, 0)` over the rationals. -/
theorem muscle_geometry_witness :
    (⟨16, 0, "muscle"⟩ : tgPair) ∈ (addActuators (State.init : State ℚ)).s.pairs ∧
    ∃ a b, (addNodes (State.init : State ℚ)).s.node 16 = some a ∧
      (addNodes (State.init : State ℚ)).s.node 0 = some b ∧
      a.distance2 b = 2 * (c : Config ℚ).rod_space ^ 2 ∧
      a.distance2 b = 21.125 :=
  have hp : (⟨16, 0, "muscle"⟩ : tgPair) ∈ (addActuators (State.init : State ℚ)).s.pairs := by
    decide
  ⟨hp, (muscle_geometry (K := ℚ) ⟨16, 0, "muscle"⟩ hp).2.2.2⟩

/-- C10: for each bar `k` of `0..5` the nodes `4k`, `4k+1`, `4k+2`, `4k+3`
lie in this order on a line parallel to a coordinate axis `e`: each is the
previous one moved along `e` by `third_length`, `motor_length`, `third_length`.
Their consecutive distances are 2.26155, 1.9769, 2.26155, and the distance of
the two ends is the sum of the three, the rod length 6.5 of the configuration. -/
theorem bar_geometry (k : Nat) (hk : k < 6) :
    ∃ n0 n1 n2 n3 e : btVector3 ℝ,
      (addNodes (State.init : State ℝ)).s.node (4 * k) = some n0 ∧
      (addNodes (State.init : State ℝ)).s.node (4 * k + 1) = some n1 ∧
      (addNodes (State.init : State ℝ)).s.node (4 * k + 2) = some n2 ∧
      (addNodes (State.init : State ℝ)).s.node (4 * k + 3) = some n3 ∧
      e ∈ [(⟨1, 0, 0⟩ : btVector3 ℝ), ⟨0, 1, 0⟩, ⟨0, 0, 1⟩] ∧
      n1 = n0.add (e.scale third_length) ∧
      n2 = n1.add (e.scale motor_length) ∧
      n3 = n2.add (e.scale third_length) ∧
      Real.sqrt (n0.distance2 n1) = 2.26155 ∧
      Real.sqrt (n1.distance2 n2) = 1.9769 ∧
      Real.sqrt (n2.distance2 n3) = 2.26155 ∧
      Real.sqrt (n0.distance2 n3) =
        Real.sqrt (n0.distance2 n1) + Real.sqrt (n1.distance2 n2) +
          Real.sqrt (n2.distance2 n3) ∧
      Real.sqrt (n0.distance2 n3) = (c : Config ℝ).rod_length ∧
      (c : Config ℝ).rod_length = 6.5 := by
  have hn := addNodes_nodes (K := ℝ)
  have key : ∀ (i : Nat) (n0 n1 n2 n3 e : btVector3 ℝ),
      (addNodes (State.init : State ℝ)).s.nodes[i]? = some n0 →
      (addNodes (State.init : State ℝ)).s.nodes[i + 1]? = some n1 →
      (addNodes (State.init : State ℝ)).s.nodes[i + 2]? = some n2 →
      (addNodes (State.init : State ℝ)).s.nodes[i + 3]? = some n3 →
      e ∈ [(⟨1, 0, 0⟩ : btVector3 ℝ), ⟨0, 1, 0⟩, ⟨0, 0, 1⟩] →
      n1 = n0.add (e.scale third_length) →
      n2 = n1.add (e.scale motor_length) →
      n3 = n2.add (e.scale third_length) →
      ∃ n0 n1 n2 n3 e : btVector3 ℝ,
        (addNodes (State.init : State ℝ)).s.node i = some n0 ∧
        (addNodes (State.init : State ℝ)).s.node (i + 1) = some n1 ∧
        (addNodes (State.init : State ℝ)).s.node (i + 2) = some n2 ∧
        (addNodes (State.init : State ℝ)).s.node (i + 3) = some n3 ∧
        e ∈ [(⟨1, 0, 0⟩ : btVector3 ℝ), ⟨0, 1, 0⟩, ⟨0, 0, 1⟩] ∧
        n1 = n0.add (e.scale third_length) ∧
        n2 = n1.add (e.scale motor_length) ∧
        n3 = n2.add (e.scale third_length) ∧
        Real.sqrt (n0.distance2 n1) = 2.26155 ∧
        Real.sqrt (n1.distance2 n2) = 1.9769 ∧
        Real.sqrt (n2.distance2 n3) = 2.26155 ∧
        Real.sqrt (n0.distance2 n3) =
          Real.sqrt (n0.distance2 n1) + Real.sqrt (n1.distance2 n2) +
            Real.sqrt (n2.distance2 n3) ∧
        Real.sqrt (n0.distance2 n3) = (c : Config ℝ).rod_length ∧
        (c : Config ℝ).rod_length = 6.5 := by
    intro i n0 n1 n2 n3 e g0 g1 g2 g3 he h1 h2 h3
    obtain ⟨d01, d12, d23, dsum, drod⟩ := bar_distances n0 n1 n2 n3 e he h1 h2 h3
    exact ⟨n0, n1, n2, n3, e, g0, g1, g2, g3, he, h1, h2, h3, d01, d12, d23, dsum, drod,
      by simp [c]⟩
  have step1 : ∀ (a e : btVector3 ℝ) (x y z : ℝ),
      a.x + e.x * third_length = x → a.y + e.y * third_length = y →
      a.z + e.z * third_length = z → (⟨x, y, z⟩ : btVector3 ℝ) = a.add (e.scale third_length) := by
    intro a e x y z hx hy hz
    simp [btVector3.add, btVector3.scale, hx, hy, hz]
  have step2 : ∀ (a e : btVector3 ℝ) (x y z : ℝ),
      a.x + e.x * motor_length = x → a.y + e.y * motor_length = y →
      a.z + e.z * motor_length = z → (⟨x, y, z⟩ : btVector3 ℝ) = a.add (e.scale motor_length) := by
    intro a e x y z hx hy hz
    simp [btVector3.add, btVector3.scale, hx, hy, hz]
  interval_cases k
  · exact key 0 _ _ _ _ ⟨0, 0, 1⟩ (by rw [hn]; rfl) (by rw [hn]; rfl) (by rw [hn]; rfl)
      (by rw [hn]; rfl) (by simp)
      (step1 _ _ _ _ _ (by norm_num [third_length]) (by norm_num [third_length])
        (by norm_num [third_length]))
      (step2 _ _ _ _ _ (by norm_num [motor_length]) (by norm_num [motor_length])
        (by norm_num [motor_length]))
      (step1 _ _ _ _ _ (by norm_num [third_length]) (by norm_num [third_length])
        (by norm_num [third_length]))
  · exact key 4 _ _ _ _ ⟨0, 0, 1⟩ (by rw [hn]; rfl) (by rw [hn]; rfl) (by rw [hn]; rfl)
      (by rw [hn]; rfl) (by simp)
      (step1 _ _ _ _ _ (by norm_num [third_length]) (by norm_num [third_length])
        (by norm_num [third_length]))
      (step2 _ _ _ _ _ (by norm_num [motor_length]) (by norm_num [motor_length])
        (by norm_num [motor_length]))
      (step1 _ _ _ _ _ (by norm_num [third_length]) (by norm_num [third_length])
        (by norm_num [third_length]))
  · exact key 8 _ _ _ _ ⟨1, 0, 0⟩ (by rw [hn]; rfl) (by rw [hn]; rfl) (by rw [hn]; rfl)
      (by rw [hn]; rfl) (by simp)
      (step1 _ _ _ _ _ (by norm_num [third_length]) (by norm_num [third_length])
        (by norm_num [third_length]))
      (step2 _ _ _ _ _ (by norm_num [motor_length]) (by norm_num [motor_length])
        (by norm_num [motor_length]))
      (step1 _ _ _ _ _ (by norm_num [third_length]) (by norm_num [third_length])
        (by norm_num [third_length]))
  · exact key 12 _ _ _ _ ⟨1, 0, 0⟩ (by rw [hn]; rfl) (by rw [hn]; rfl) (by rw [hn]; rfl)
      (by rw [hn]; rfl) (by simp)
      (step1 _ _ _ _ _ (by norm_num [third_length]) (by norm_num [third_length])
        (by norm_num [third_length]))
      (step2 _ _ _ _ _ (by norm_num [motor_length]) (by norm_num [motor_length])
        (by norm_num [motor_length]))
      (step1 _ _ _ _ _ (by norm_num [third_length]) (by norm_num [third_length])
        (by norm_num [third_length]))
  · exact key 16 _ _ _ _ ⟨0, 1, 0⟩ (by rw [hn]; rfl) (by rw [hn]; rfl) (by rw [hn]; rfl)
      (by rw [hn]; rfl) (by simp)
      (step1 _ _ _ _ _ (by norm_num [third_length]) (by norm_num [third_length])
        (by norm_num [third_length]))
      (step2 _ _ _ _ _ (by norm_num [motor_length]) (by norm_num [motor_length])
        (by norm_num [motor_length]))
      (step1 _ _ _ _ _ (by norm_num [third_length]) (by norm_num [third_length])
        (by norm_num [third_length]))
  · exact key 20 _ _ _ _ ⟨0, 1, 0⟩ (by rw [hn]; rfl) (by rw [hn]; rfl) (by rw [hn]; rfl)
      (by rw [hn]; rfl) (by simp)
      (step1 _ _ _ _ _ (by norm_num [third_length]) (by norm_num [third_length])
        (by norm_num [third_length]))
      (step2 _ _ _ _ _ (by norm_num [motor_length]) (by norm_num [motor_length])
        (by norm_num [motor_length]))
      (step1 _ _ _ _ _ (by norm_num [third_length]) (by norm_num [third_length])
        (by norm_num [third_length]))

/-- C10, evaluated at the first bar: nodes 0, 1, 2, 3 lie along one axis and
the ends are a rod length apart. -/
theorem bar_geometry_witness :
    (0 < 6) ∧ ∃ n0 n3 : btVector3 ℝ,
      (addNodes (State.init : State ℝ)).s.node 0 = some n0 ∧
      (addNodes (State.init : State ℝ)).s.node 3 = some n3 ∧
      Real.sqrt (n0.distance2 n3) = 6.5 := by
  refine ⟨by decide, ?_⟩
  obtain ⟨n0, _, _, n3, _, g0, _, _, g3, _, _, _, _, _, _, _, _, drod, hrod⟩ :=
    bar_geometry 0 (by decide)
  exact ⟨n0, n3, g0, g3, by rw [drod, hrod]⟩

/-- C6: nodes 1 and 2 are a motor length, 1.9769, apart as `addNodes` declares
them, and also in the structure `setup` hands to the builder, which is the
declared structure moved by `(0, 10, 0)` and then rotated by a right angle
about the y-axis through the origin. More generally `move` by any offset, and
`addRotation` about any fixed point and unit axis by any angle, keep the
distance of any two nodes of any structure. -/
theorem motor_distance_invariant :
    (∃ a b : btVector3 ℝ, (addNodes (State.init : State ℝ)).s.node 1 = some a ∧
      (addNodes (State.init : State ℝ)).s.node 2 = some b ∧
      Real.sqrt (a.distance2 b) = motor_length ∧ (motor_length : ℝ) = 1.9769) ∧
    (∃ (s : tgStructure ℝ) (spec : List (String × tgBuilder ℝ)) (a b : btVector3 ℝ),
      (setup (State.init : State ℝ)).handed = some (s, spec) ∧
      s = (addRotation ⟨0, 0, 0⟩ ⟨0, 1, 0⟩ (Real.cos (Real.pi / 2)) (Real.sin (Real.pi / 2))
            (move ⟨0, 10, 0⟩ (declared ℝ))).s ∧
      s.node 1 = some a ∧ s.node 2 = some b ∧
      Real.sqrt (a.distance2 b) = 1.9769) ∧
    (∀ (σ : State ℝ) (offset : btVector3 ℝ) (i j : Nat) (a b : btVector3 ℝ),
      σ.s.node i = some a → σ.s.node j = some b →
      ∃ a' b', (move offset σ).s.node i = some a' ∧ (move offset σ).s.node j = some b' ∧
        Real.sqrt (a'.distance2 b') = Real.sqrt (a.distance2 b)) ∧
    (∀ (σ : State ℝ) (fixedPoint axis : btVector3 ℝ) (θ : ℝ) (i j : Nat) (a b : btVector3 ℝ),
      axis.dot axis = 1 → σ.s.node i = some a → σ.s.node j = some b →
      ∃ a' b',
        (addRotation fixedPoint axis (Real.cos θ) (Real.sin θ) σ).s.node i = some a' ∧
        (addRotation fixedPoint axis (Real.cos θ) (Real.sin θ) σ).s.node j = some b' ∧
        Real.sqrt (a'.distance2 b') = Real.sqrt (a.distance2 b)) := by
  have hmove : ∀ (σ : State ℝ) (offset : btVector3 ℝ) (i j : Nat) (a b : btVector3 ℝ),
      σ.s.node i = some a → σ.s.node j = some b →
      ∃ a' b', (move offset σ).s.node i = some a' ∧ (move offset σ).s.node j = some b' ∧
        Real.sqrt (a'.distance2 b') = Real.sqrt (a.distance2 b) := by
    intro σ offset i j a b ha hb
    refine ⟨a.add offset, b.add offset, ?_, ?_, ?_⟩
    · rw [node_move, ha]; rfl
    · rw [node_move, hb]; rfl
    · rw [distance2_add]
  have hrot : ∀ (σ : State ℝ) (fixedPoint axis : btVector3 ℝ) (θ : ℝ) (i j : Nat)
      (a b : btVector3 ℝ),
      axis.dot axis = 1 → σ.s.node i = some a → σ.s.node j = some b →
      ∃ a' b',
        (addRotation fixedPoint axis (Real.cos θ) (Real.sin θ) σ).s.node i = some a' ∧
        (addRotation fixedPoint axis (Real.cos θ) (Real.sin θ) σ).s.node j = some b' ∧
        Real.sqrt (a'.distance2 b') = Real.sqrt (a.distance2 b) := by
    intro σ fixedPoint axis θ i j a b haxis ha hb
    refine ⟨((a.sub fixedPoint).rotate axis (Real.cos θ) (Real.sin θ)).add fixedPoint,
      ((b.sub fixedPoint).rotate axis (Real.cos θ) (Real.sin θ)).add fixedPoint, ?_, ?_, ?_⟩
    · rw [node_addRotation, ha]; rfl
    · rw [node_addRotation, hb]; rfl
    · rw [distance2_rotate a b fixedPoint axis _ _ haxis]
      have := Real.cos_sq_add_sin_sq θ
      nlinarith [this]
  refine ⟨motor_nodes_declared, ?_, hmove, hrot⟩
  obtain ⟨a, b, ha, hb, hd, hm⟩ := motor_nodes_declared
  have ha' : (declared ℝ).s.node 1 = some a := by
    rw [tgStructure.node, declared_nodes]; exact ha
  have hb' : (declared ℝ).s.node 2 = some b := by
    rw [tgStructure.node, declared_nodes]; exact hb
  obtain ⟨a₁, b₁, ha₁, hb₁, hd₁⟩ := hmove (declared ℝ) ⟨0, 10, 0⟩ 1 2 a b ha' hb'
  obtain ⟨a₂, b₂, ha₂, hb₂, hd₂⟩ :=
    hrot (move ⟨0, 10, 0⟩ (declared ℝ)) ⟨0, 0, 0⟩ ⟨0, 1, 0⟩ (Real.pi / 2) 1 2 a₁ b₁
      (by norm_num [btVector3.dot]) ha₁ hb₁
  refine ⟨_, _, a₂, b₂, setup_handed, ?_, ?_, ?_, ?_⟩
  · rw [Real.cos_pi_div_two, Real.sin_pi_div_two]
  · rw [Real.cos_pi_div_two, Real.sin_pi_div_two] at ha₂
    exact ha₂
  · rw [Real.cos_pi_div_two, Real.sin_pi_div_two] at hb₂
    exact hb₂
  · rw [hd₂, hd₁, hd, hm]

/-- C6, evaluated: moving the declared nodes by `(0, 10, 0)` and rotating them
by a third of a turn about the unit axis `(0, 0.6, 0.8)` through `(1, 2, 3)`
leaves nodes 1 and 2 a motor length apart. -/
theorem motor_distance_invariant_witness :
    ∃ a b : btVector3 ℝ,
      (addRotation ⟨1, 2, 3⟩ ⟨0, 0.6, 0.8⟩ (Real.cos (2 * Real.pi / 3))
        (Real.sin (2 * Real.pi / 3))
        (move ⟨0, 10, 0⟩ (addNodes (State.init : State ℝ)))).s.node 1 = some a ∧
      (addRotation ⟨1, 2, 3⟩ ⟨0, 0.6, 0.8⟩ (Real.cos (2 * Real.pi / 3))
        (Real.sin (2 * Real.pi / 3))
        (move ⟨0, 10, 0⟩ (addNodes (State.init : State ℝ)))).s.node 2 = some b ∧
      Real.sqrt (a.distance2 b) = 1.9769 := by
  obtain ⟨a, b, ha, hb, hd, hm⟩ := motor_distance_invariant.1
  obtain ⟨a₁, b₁, ha₁, hb₁, hd₁⟩ :=
    motor_distance_invariant.2.2.1 (addNodes State.init) ⟨0, 10, 0⟩ 1 2 a b ha hb
  obtain ⟨a₂, b₂, ha₂, hb₂, hd₂⟩ :=
    motor_distance_invariant.2.2.2 (move ⟨0, 10, 0⟩ (addNodes State.init)) ⟨1, 2, 3⟩
      ⟨0, 0.6, 0.8⟩ (2 * Real.pi / 3) 1 2 a₁ b₁ (by norm_num [btVector3.dot]) ha₁ hb₁
  exact ⟨a₂, b₂, ha₂, hb₂, by rw [hd₂, hd₁, hd, hm]⟩

/-- The routine `addNodes` appends its calls to the trace. -/
theorem addNodes_trace_append {K : Type} [Field K] (σ : State K) :
    (addNodes σ).trace = σ.trace ++ (addNodes (State.init : State K)).trace := by
  simp [addNodes, addNode, State.init]

/-- The routine `addRods` appends its calls to the trace. -/
theorem addRods_trace_append {K : Type} [Field K] (σ : State K) :
    (addRods σ).trace = σ.trace ++ (addRods (State.init : State K)).trace := by
  simp [addRods, addPair, State.init]

/-- The routine `addActuators` appends its calls to the trace. -/
theorem addActuators_trace_append {K : Type} [Field K] (σ : State K) :
    (addActuators σ).trace = σ.trace ++ (addActuators (State.init : State K)).trace := by
  simp [addActuators, addPair, State.init]

/-- The calls of `addNodes`: 24 node declarations. -/
theorem addNodes_trace {K : Type} [Field K] :
    (addNodes (State.init : State K)).trace.length = 24 ∧
    (addNodes (State.init : State K)).trace.all Call.isAddNode = true ∧
    (addNodes (State.init : State K)).trace.countP Call.isMove = 0 ∧
    (addNodes (State.init : State K)).trace.countP Call.isRotation = 0 := by
  simp [addNodes, addNode, State.init, Call.isAddNode, Call.isMove, Call.isRotation]

/-- The calls of `addRods`: 18 pair declarations. -/
theorem addRods_trace {K : Type} [Field K] :
    (addRods (State.init : State K)).trace.length = 18 ∧
    (addRods (State.init : State K)).trace.all Call.isAddPair = true ∧
    (addRods (State.init : State K)).trace.countP Call.isMove = 0 ∧
    (addRods (State.init : State K)).trace.countP Call.isRotation = 0 := by
  simp [addRods, addPair, State.init, Call.isAddPair, Call.isMove, Call.isRotation]

/-- The calls of `addActuators`: 25 pair declarations. -/
theorem addActuators_trace {K : Type} [Field K] :
    (addActuators (State.init : State K)).trace.length = 25 ∧
    (addActuators (State.init : State K)).trace.all Call.isAddPair = true ∧
    (addActuators (State.init : State K)).trace.countP Call.isMove = 0 ∧
    (addActuators (State.init : State K)).trace.countP Call.isRotation = 0 := by
  simp [addActuators, addPair, State.init, Call.isAddPair, Call.isMove, Call.isRotation]

/-- The calls of `setup`, in order: the declarations, the two transforms, the
three builder registrations, the build, and the three notifications. -/
theorem setup_trace {K : Type} [Field K] :
    (setup (State.init : State K)).trace =
      (addNodes (State.init : State K)).trace ++
      (addRods (State.init : State K)).trace ++
      (addActuators (State.init : State K)).trace ++
      [Call.move ⟨0, 10, 0⟩, Call.addRotation ⟨0, 0, 0⟩ ⟨0, 1, 0⟩ 0 1] ++
      [Call.addBuilder "rod" (.tgRodInfo (c : Config K).radius (c : Config K).density
          (c : Config K).friction (c : Config K).rollFriction (c : Config K).restitution),
       Call.addBuilder "muscle" (.tgBasicActuatorInfo (c : Config K).stiffness
          (c : Config K).damping (c : Config K).pretension (c : Config K).hist
          (c : Config K).maxTens (c : Config K).targetVelocity),
       Call.addBuilder "motor" (.tgRodInfo (c : Config K).radius_motor (c : Config K).density
          (c : Config K).friction (c : Config K).rollFriction (c : Config K).restitution)] ++
      [Call.buildInto, Call.filter, Call.notifySetup, Call.tgModel_setup] := by
  simp only [setup, buildInto, call, addBuilder, move, addRotation]
  rw [addActuators_trace_append, addRods_trace_append, addNodes_trace_append]
  simp [State.init]

/-- C7: the calls of `setup` are, in order: the declarations of `addNodes`
(24 nodes), `addRods` (18 pairs) and `addActuators` (25 pairs); one `move` by
`(0, 10, 0)`; one `addRotation` by a right angle about the y-axis through the
origin; the builder registrations; `buildInto`; the notifications. No other
call is a `move` or an `addRotation`, and the structure handed to the builder
is the declared one, moved and rotated, and is still the structure at the end. -/
theorem setup_transform_once {K : Type} [Field K] :
    (∃ after : List (Call K),
      (setup (State.init : State K)).trace =
        ((addNodes (State.init : State K)).trace ++
          (addRods (State.init : State K)).trace ++
          (addActuators (State.init : State K)).trace) ++
        [Call.move ⟨0, 10, 0⟩, Call.addRotation ⟨0, 0, 0⟩ ⟨0, 1, 0⟩ 0 1] ++ after ∧
      after.countP Call.isBuildInto = 1 ∧
      after.all (fun k => !(k.isAddNode || k.isAddPair || k.isMove || k.isRotation)) = true) ∧
    ((addNodes (State.init : State K)).trace.length = 24 ∧
      (addNodes (State.init : State K)).trace.all Call.isAddNode = true) ∧
    ((addRods (State.init : State K)).trace.length = 18 ∧
      (addRods (State.init : State K)).trace.all Call.isAddPair = true) ∧
    ((addActuators (State.init : State K)).trace.length = 25 ∧
      (addActuators (State.init : State K)).trace.all Call.isAddPair = true) ∧
    (setup (State.init : State K)).trace.countP Call.isMove = 1 ∧
    (setup (State.init : State K)).trace.countP Call.isRotation = 1 ∧
    (setup (State.init : State K)).handed.map Prod.fst =
      some (addRotation ⟨0, 0, 0⟩ ⟨0, 1, 0⟩ 0 1 (move ⟨0, 10, 0⟩ (declared K))).s ∧
    (setup (State.init : State K)).handed.map Prod.fst =
      some (setup (State.init : State K)).s := by
  refine ⟨⟨[Call.addBuilder "rod" (.tgRodInfo (c : Config K).radius (c : Config K).density
          (c : Config K).friction (c : Config K).rollFriction (c : Config K).restitution),
       Call.addBuilder "muscle" (.tgBasicActuatorInfo (c : Config K).stiffness
          (c : Config K).damping (c : Config K).pretension (c : Config K).hist
          (c : Config K).maxTens (c : Config K).targetVelocity),
       Call.addBuilder "motor" (.tgRodInfo (c : Config K).radius_motor (c : Config K).density
          (c : Config K).friction (c : Config K).rollFriction (c : Config K).restitution),
       Call.buildInto, Call.filter, Call.notifySetup, Call.tgModel_setup], ?_, ?_, ?_⟩,
    ⟨addNodes_trace.1, addNodes_trace.2.1⟩,
    ⟨addRods_trace.1, addRods_trace.2.1⟩, ⟨addActuators_trace.1, addActuators_trace.2.1⟩,
    ?_, ?_, ?_, ?_⟩
  · rw [setup_trace]
    simp only [List.append_assoc, List.cons_append, List.nil_append]
  · simp [Call.isBuildInto]
  · simp [Call.isAddNode, Call.isAddPair, Call.isMove, Call.isRotation]
  · rw [setup_trace]
    simp only [List.countP_append, addNodes_trace.2.2.1, addRods_trace.2.2.1,
      addActuators_trace.2.2.1]
    simp [Call.isMove]
  · rw [setup_trace]
    simp only [List.countP_append, addNodes_trace.2.2.2, addRods_trace.2.2.2,
      addActuators_trace.2.2.2]
    simp [Call.isRotation]
  · rw [setup_handed]; rfl
  · rw [setup_handed, setup_structure]; rfl

end v3Model
